import Mathlib

/-
  Verification of the crewai_mcp_adapter repository.

  Shallow embedding of `crewai_adapters/types.py`, `crewai_adapters/tools.py`,
  `crewai_adapters/context_protocol.py` and `crewai_adapters/client.py`.
  Python runtime values are modelled by the inductive `Value`; Python
  exceptions by `PyErr`; fallible Python code returns `Except PyErr _`.
  Wall-clock readings are abstract `Nat` samples passed explicitly.
-/

set_option autoImplicit false

namespace CrewaiAdapters

/-- Python runtime values as they occur in adapter configurations, tool
parameters and response data: None, bool, int, str, list, dict. -/
inductive Value where
  | vnone
  | vbool (b : Bool)
  | vint (n : Int)
  | vstr (s : String)
  | vlist (xs : List Value)
  | vdict (kvs : List (String × Value))

/-- Whether a Python value is a mapping (dict). -/
def Value.isDict : Value → Bool
  | .vdict _ => true
  | _ => false

mutual
/-- Python repr() restricted to the `Value` fragment. String escaping inside
quotes is not modelled (no claim depends on it); quotes are single quotes as
in CPython. -/
def pyRepr : Value → String
  | .vnone => "None"
  | .vbool b => if b then "True" else "False"
  | .vint n => toString n
  | .vstr s => "\x27" ++ s ++ "\x27"
  | .vlist xs => "[" ++ String.intercalate ", " (pyReprList xs) ++ "]"
  | .vdict kvs => "\x7b" ++ String.intercalate ", " (pyReprPairs kvs) ++ "\x7d"

/-- repr() of the elements of a Python list. -/
def pyReprList : List Value → List String
  | [] => []
  | v :: vs => pyRepr v :: pyReprList vs

/-- repr() of the entries of a Python dict with string keys. -/
def pyReprPairs : List (String × Value) → List String
  | [] => []
  | (k, v) :: kvs => ("\x27" ++ k ++ "\x27: " ++ pyRepr v) :: pyReprPairs kvs
end

/-- Python str(): identity on strings, repr-like on everything else. -/
def pyStr : Value → String
  | .vstr s => s
  | v => pyRepr v

/-- Python exceptions raised by the embedded code
(`crewai_adapters/exceptions.py` defines the first and last ones; the others
are builtins / pydantic). -/
inductive PyErr where
  | configurationError (msg : String)
  | keyError (key : String)
  | typeError (msg : String)
  | attributeError (msg : String)
  | validationError (msg : String)
  | executionError (msg : String)
  deriving DecidableEq

/-- AdapterMetadata (`types.py` lines 9-16): timestamp, duration, source and
free-form additional data. Durations are modelled as integer differences of
the abstract clock samples. -/
structure AdapterMetadata where
  timestamp : String
  duration : Int
  source : String
  additional_data : List (String × Value)

/-- AdapterResponse (`types.py` lines 18-25). -/
structure AdapterResponse where
  success : Bool
  data : Option Value
  error : Option String
  metadata : Option AdapterMetadata

/-- Modelled from the spec: `create_metadata` lives in
`crewai_adapters/utils.py`, which is not among the provided sources.
Spec section 3 (Metadata): a timestamp string, a duration in seconds elapsed
since an optionally supplied start time, the emitting adapter class name as
source, and a free-form additional-data map. When no start time is supplied
the duration is measured from the moment the metadata is built (zero here). -/
def create_metadata (source : String) (startTime : Option Nat) (now : Nat)
    (additionalData : List (String × Value)) : AdapterMetadata :=
  { timestamp := toString now
    duration := (now : Int) - ((startTime.getD now : Nat) : Int)
    source := source
    additional_data := additionalData }

/-- Keyword-arguments of a tool call: a Python dict of string keys to values. -/
abbrev Args : Type := List (String × Value)

/-- A tool implementation function: receives the keyword arguments and either
returns a value or raises (`.error msg` models an exception with message
`str(e) = msg`). Async/sync distinction is erased by the pure embedding. -/
abbrev ToolFunc : Type := Args → Except String Value

/-- One entry of the "tools" list of an adapter configuration. Each key may
be absent, which `Option` records: the source reads `tool_config["name"]`
(KeyError if absent) and `tool_config.get(...)` for the rest. -/
structure ToolConfig where
  name : Option String
  description : Option String
  parameters : Option Value
  func : Option ToolFunc

/-- The value stored under the "tools" key of a tool-adapter configuration:
absent, an actual list of entries, a dict (iterating it yields its keys,
modelled as strings — the typical case; non-string keys raise the same
exception classes from the same sites), an iterator or generator of entries
(an object without a length, truthy regardless of its contents), or a value
that is not iterable at all (e.g. an int), of which only the truthiness is
relevant. -/
inductive ToolsValue where
  | absent
  | pyList (entries : List ToolConfig)
  | pyDict (keys : List String)
  | iterator (entries : List ToolConfig)
  | nonIterable (truthy : Bool)

/-- Python truthiness of the "tools" configuration value:
`config.get("tools")` yields None when absent; lists and dicts are truthy
iff non-empty; iterator objects are always truthy. -/
def ToolsValue.truthy : ToolsValue → Bool
  | .absent => false
  | .pyList es => !es.isEmpty
  | .pyDict ks => !ks.isEmpty
  | .iterator _ => true
  | .nonIterable t => t

/-- `_validate_config` of both tool adapters (`tools.py` lines 66-68 and
161-164, identical bodies): raise ConfigurationError if the "tools" value is
falsy. -/
def validateToolsConfig (tv : ToolsValue) : Except PyErr Unit :=
  if tv.truthy then .ok () else .error (.configurationError "Tools configuration is required")

/-- Message of the TypeError Python raises when the for-loop of
`_register_tools` iterates a non-iterable "tools" value. -/
def notIterableMsg : String := "object is not iterable"

/-- Message of the TypeError Python raises when a dict key (a string) is
subscripted by `tool_config["name"]`. -/
def strIndicesMsg : String := "string indices must be integers"

/-- Message of the AttributeError Python raises when the CrewAI log handler
evaluates `tool_config.get("name")` on a string. -/
def noGetAttrMsg : String := "\x27str\x27 object has no attribute \x27get\x27"

/-- MCP tool record (`mcp.types.Tool`): name, description, inputSchema. -/
structure MCPTool where
  name : String
  description : String
  inputSchema : Value

/-- Pydantic validation of `MCPTool(...)`: inputSchema must be a mapping,
otherwise construction raises a ValidationError. -/
def mkMCPTool (name description : String) (inputSchema : Value) : Except PyErr MCPTool :=
  if inputSchema.isDict then .ok ⟨name, description, inputSchema⟩
  else .error (.validationError "inputSchema: value is not a valid dict")

/-- `MCPToolsAdapter` state (`tools.py` line 63): the registered MCP tools. -/
structure MCPToolsAdapter where
  tools : List MCPTool

/-- One iteration of `MCPToolsAdapter._register_tools` (`tools.py` lines
72-81). A failing entry is caught and logged, but the log f-string evaluates
`tool_config["name"]`: when the failure is the missing "name" key the
handler itself raises KeyError again, which propagates. An entry whose
MCPTool construction fails (non-dict parameters) is skipped. -/
def MCPToolsAdapter.registerOne (tools : List MCPTool) (tc : ToolConfig) :
    Except PyErr (List MCPTool) :=
  match tc.name with
  | none => .error (.keyError "name")
  | some n =>
      match mkMCPTool n (tc.description.getD "") (tc.parameters.getD (.vdict [])) with
      | .ok t => .ok (tools ++ [t])
      | .error _ => .ok tools

/-- The for-loop of `MCPToolsAdapter._register_tools` over the entries. -/
def MCPToolsAdapter.registerList : List MCPTool → List ToolConfig → Except PyErr (List MCPTool)
  | acc, [] => .ok acc
  | acc, tc :: rest => do
      let acc2 ← MCPToolsAdapter.registerOne acc tc
      MCPToolsAdapter.registerList acc2 rest

/-- `MCPToolsAdapter._register_tools` (`tools.py` lines 70-81): iterates
`config.get("tools", [])`. A list or an iterator of entries is traversed
entry by entry. Iterating a dict yields its keys: on the first key,
`tool_config["name"]` subscripts a string and raises TypeError inside the
try; the except handler re-evaluates `tool_config['name']` and the same
TypeError propagates. A non-iterable value makes the for-statement itself
raise TypeError. -/
def MCPToolsAdapter.registerTools : ToolsValue → Except PyErr (List MCPTool)
  | .absent => .ok []
  | .pyList es => MCPToolsAdapter.registerList [] es
  | .pyDict [] => .ok []
  | .pyDict (_ :: _) => .error (.typeError strIndicesMsg)
  | .iterator es => MCPToolsAdapter.registerList [] es
  | .nonIterable _ => .error (.typeError notIterableMsg)

/-- `MCPToolsAdapter.__init__` (`tools.py` lines 61-64). Modelled from the
spec for the missing `base.py`: `BaseAdapter.__init__` stores the config
(default empty) and immediately invokes the `_validate_config` hook
(spec section 4.1); the subclass then registers its tools. -/
def mkMCPToolsAdapter (toolsCfg : ToolsValue) : Except PyErr MCPToolsAdapter := do
  validateToolsConfig toolsCfg
  let ts ← MCPToolsAdapter.registerTools toolsCfg
  .ok ⟨ts⟩

/-- Python truthiness of the `tool_name` keyword argument (absent or the
empty string are falsy). -/
def strTruthy : Option String → Bool
  | none => false
  | some s => !(s == "")

/-- `MCPToolsAdapter.execute` (`tools.py` lines 103-147). `tStart` is the
`time.time()` sample taken at entry, `tNow` the sample taken when metadata is
built. A falsy tool_name raises ConfigurationError; an unknown name yields a
failure Response; a known name yields the fixed success string. -/
def MCPToolsAdapter.execute (a : MCPToolsAdapter) (toolName : Option String)
    (parameters : Args) (tStart tNow : Nat) : Except PyErr AdapterResponse :=
  if strTruthy toolName then
    match a.tools.find? (fun t => t.name == toolName.getD "") with
    | none =>
        .ok { success := false
              data := none
              error := some ("Tool " ++ toolName.getD "" ++ " not found")
              metadata := some (create_metadata "MCPToolsAdapter" (some tStart) tNow []) }
    | some _ =>
        .ok { success := true
              data := some (.vstr "Executed MCP tool successfully")
              error := none
              metadata := some (create_metadata "MCPToolsAdapter" (some tStart) tNow
                [("tool", .vstr (toolName.getD "")), ("parameters", .vdict parameters)]) }
  else .error (.configurationError "Tool name is required")

/-- CrewAITool record (`tools.py` lines 15-21): a plain dataclass, no
validation on construction. -/
structure CrewAITool where
  name : String
  description : String
  parameters : Value
  func : Option ToolFunc

/-- `CrewAIToolsAdapter` state (`tools.py` line 158). -/
structure CrewAIToolsAdapter where
  tools : List CrewAITool

/-- One iteration of `CrewAIToolsAdapter._register_tools` (`tools.py` lines
168-178). The only possible failure is the KeyError on a missing "name" key;
it is caught, and the handler logs with `tool_config.get("name")`, which
cannot fail, so the entry is skipped. -/
def CrewAIToolsAdapter.registerOne (tools : List CrewAITool) (tc : ToolConfig) :
    Except PyErr (List CrewAITool) :=
  match tc.name with
  | none => .ok tools
  | some n =>
      .ok (tools ++ [⟨n, tc.description.getD "", tc.parameters.getD (.vdict []), tc.func⟩])

/-- The for-loop of `CrewAIToolsAdapter._register_tools` over the entries. -/
def CrewAIToolsAdapter.registerList :
    List CrewAITool → List ToolConfig → Except PyErr (List CrewAITool)
  | acc, [] => .ok acc
  | acc, tc :: rest => do
      let acc2 ← CrewAIToolsAdapter.registerOne acc tc
      CrewAIToolsAdapter.registerList acc2 rest

/-- `CrewAIToolsAdapter._register_tools` (`tools.py` lines 166-178). As for
the MCP variant, except that on a dict key the TypeError from
`tool_config["name"]` is caught and the log handler then evaluates
`tool_config.get("name")` on the string key, raising AttributeError. -/
def CrewAIToolsAdapter.registerTools : ToolsValue → Except PyErr (List CrewAITool)
  | .absent => .ok []
  | .pyList es => CrewAIToolsAdapter.registerList [] es
  | .pyDict [] => .ok []
  | .pyDict (_ :: _) => .error (.attributeError noGetAttrMsg)
  | .iterator es => CrewAIToolsAdapter.registerList [] es
  | .nonIterable _ => .error (.typeError notIterableMsg)

/-- `CrewAIToolsAdapter.__init__` (`tools.py` lines 156-159); base-class
behaviour modelled from the spec as for `mkMCPToolsAdapter`. -/
def mkCrewAIToolsAdapter (toolsCfg : ToolsValue) : Except PyErr CrewAIToolsAdapter := do
  validateToolsConfig toolsCfg
  let ts ← CrewAIToolsAdapter.registerTools toolsCfg
  .ok ⟨ts⟩

/-- `CrewAIToolsAdapter.execute` (`tools.py` lines 192-243). -/
def CrewAIToolsAdapter.execute (a : CrewAIToolsAdapter) (toolName : Option String)
    (parameters : Args) (tStart tNow : Nat) : Except PyErr AdapterResponse :=
  if strTruthy toolName then
    match a.tools.find? (fun t => t.name == toolName.getD "") with
    | none =>
        .ok { success := false
              data := none
              error := some ("Tool " ++ toolName.getD "" ++ " not found")
              metadata := some (create_metadata "CrewAIToolsAdapter" (some tStart) tNow []) }
    | some tool =>
        match tool.func with
        | some f =>
            match f parameters with
            | .ok result =>
                .ok { success := true
                      data := some result
                      error := none
                      metadata := some (create_metadata "CrewAIToolsAdapter" (some tStart) tNow
                        [("tool", .vstr (toolName.getD "")), ("parameters", .vdict parameters)]) }
            | .error e =>
                .ok { success := false
                      data := none
                      error := some e
                      metadata := some (create_metadata "CrewAIToolsAdapter" (some tStart) tNow
                        [("tool", .vstr (toolName.getD "")), ("error", .vstr e)]) }
        | none =>
            .ok { success := false
                  data := none
                  error := some "Tool function not implemented"
                  metadata := some (create_metadata "CrewAIToolsAdapter" (some tStart) tNow
                    [("tool", .vstr (toolName.getD "")), ("parameters", .vdict parameters)]) }
  else .error (.configurationError "Tool name is required")

/-- ConcreteCrewAITool (`tools.py` lines 27-47): the framework-native
callable tool produced by conversion, holding the execution function. -/
structure ConcreteCrewAITool where
  name : String
  description : String
  execution_func : ToolFunc

/-- `ConcreteCrewAITool._run` (`tools.py` lines 49-56): awaits the execution
function, stringifies the result; any exception is logged and re-raised as
ExecutionError with the tool name and the underlying message. -/
def ConcreteCrewAITool.run (t : ConcreteCrewAITool) (kwargs : Args) : Except PyErr String :=
  match t.execution_func kwargs with
  | .ok result => .ok (pyStr result)
  | .error e => .error (.executionError ("Failed to execute " ++ t.name ++ ": " ++ e))

/-- `CrewAIToolsAdapter.convert_to_crewai_tool` (`tools.py` lines 180-190):
raises ConfigurationError when the tool has no execution function. -/
def CrewAIToolsAdapter.convert_to_crewai_tool (_a : CrewAIToolsAdapter) (t : CrewAITool) :
    Except PyErr ConcreteCrewAITool :=
  match t.func with
  | none => .error (.configurationError ("Tool " ++ t.name ++ " has no execution function"))
  | some f => .ok { name := t.name, description := t.description, execution_func := f }

/-- `CrewAIToolsAdapter.get_all_tools` (`tools.py` lines 245-247): the list
comprehension propagates any conversion exception. -/
def CrewAIToolsAdapter.get_all_tools (a : CrewAIToolsAdapter) :
    Except PyErr (List ConcreteCrewAITool) :=
  a.tools.mapM a.convert_to_crewai_tool

/-- `ContextProtocolClient` state after construction: `_validate_config`
(`context_protocol.py` lines 11-20) guarantees model_name is present and
context_size is an int. -/
structure ContextProtocolClient where
  model_name : String
  context_size : Int

/-- Python slicing `s[:n]` on a string: for negative n, all but the last
|n| characters; otherwise the first n characters. -/
def pySliceStr (s : String) (n : Int) : String :=
  if n < 0 then s.take ((s.length : Int) + n).toNat else s.take n.toNat

/-- Python slicing `xs[:n]` on a list. -/
def pySliceList (xs : List Value) (n : Int) : List Value :=
  if n < 0 then xs.take ((xs.length : Int) + n).toNat else xs.take n.toNat

/-- `ContextProtocolClient._process_context` (`context_protocol.py` lines
57-81). -/
def ContextProtocolClient.process_context (c : ContextProtocolClient) (context : String)
    (messages : List Value) : Value :=
  .vdict [("model", .vstr c.model_name),
          ("context", .vstr (pySliceStr context c.context_size)),
          ("messages", .vlist (pySliceList messages c.context_size)),
          ("metadata", .vdict
            [("original_context_length", .vint context.length),
             ("truncated", .vbool (decide ((context.length : Int) > c.context_size)))])]

/-- `ContextProtocolClient.execute` (`context_protocol.py` lines 22-55).
`_process_context` is total for a validated client, so the except branch of
the source is unreachable and the result is always the success Response. -/
def ContextProtocolClient.execute (c : ContextProtocolClient) (startTime : Option Nat)
    (context : String) (messages : List Value) (tNow : Nat) : AdapterResponse :=
  { success := true
    data := some (c.process_context context messages)
    error := none
    metadata := some (create_metadata "ContextProtocolClient" startTime tNow
      [("model", .vstr c.model_name)]) }

/-- `CrewAIAdapterClient` tool cache (`client.py` line 27): an
insertion-ordered dict from adapter name to its cached tool list. -/
structure CrewAIAdapterClient where
  tools : List (String × List ConcreteCrewAITool)

/-- Python `d.get(k, dflt)` on an insertion-ordered dict modelled as an
association list. -/
def dictGetD (d : List (String × List ConcreteCrewAITool)) (k : String)
    (dflt : List ConcreteCrewAITool) : List ConcreteCrewAITool :=
  match d.find? (fun p => p.1 == k) with
  | some p => p.2
  | none => dflt

/-- Python `d[k] = v` on an insertion-ordered dict: overwrite in place if the
key exists, else append. -/
def dictInsert (d : List (String × List ConcreteCrewAITool)) (k : String)
    (v : List ConcreteCrewAITool) : List (String × List ConcreteCrewAITool) :=
  if d.any (fun p => p.1 == k) then d.map (fun p => if p.1 == k then (k, v) else p)
  else d ++ [(k, v)]

/-- `CrewAIAdapterClient.register_adapter` (`client.py` lines 107-115). -/
def CrewAIAdapterClient.register_adapter (c : CrewAIAdapterClient) (name : String)
    (cfg : ToolsValue) : Except PyErr CrewAIAdapterClient := do
  let adapter ← mkCrewAIToolsAdapter cfg
  let tools ← adapter.get_all_tools
  .ok ⟨dictInsert c.tools name tools⟩

/-- `CrewAIAdapterClient.get_tools` (`client.py` lines 117-121). The source
tests `if server_name:`, so the empty string is treated like an absent name. -/
def CrewAIAdapterClient.get_tools (c : CrewAIAdapterClient) (serverName : Option String) :
    List ConcreteCrewAITool :=
  if strTruthy serverName then dictGetD c.tools (serverName.getD "") []
  else (c.tools.map Prod.snd).flatten

/-- C1 counterexample: with tool_name absent, both adapters raise
ConfigurationError "Tool name is required" instead of returning a failure
Response, refuting the claim at the concrete input (empty adapter, no
tool_name, empty parameters). -/
theorem execute_missing_tool_name_counterexample :
    (MCPToolsAdapter.mk []).execute none [] 0 0
      = .error (.configurationError "Tool name is required") ∧
    (CrewAIToolsAdapter.mk []).execute none [] 0 0
      = .error (.configurationError "Tool name is required") :=
  ⟨rfl, rfl⟩

/-- C1 (amended): for both tool adapters, every execute call whose tool_name
is absent or empty raises ConfigurationError "Tool name is required"
synchronously, rather than returning a Response. -/
theorem execute_missing_tool_name_raises (a : MCPToolsAdapter) (b : CrewAIToolsAdapter)
    (tn : Option String) (p : Args) (t0 t1 : Nat) (h : strTruthy tn = false) :
    a.execute tn p t0 t1 = .error (.configurationError "Tool name is required") ∧
    b.execute tn p t0 t1 = .error (.configurationError "Tool name is required") := by
  unfold MCPToolsAdapter.execute CrewAIToolsAdapter.execute
  simp [h]

/-- C1 witness: the amended theorem applied to empty adapters and an absent
tool_name. -/
theorem execute_missing_tool_name_raises_witness :
    strTruthy none = false ∧
    ((MCPToolsAdapter.mk []).execute none [] 1 2
        = .error (.configurationError "Tool name is required") ∧
     (CrewAIToolsAdapter.mk []).execute none [] 1 2
        = .error (.configurationError "Tool name is required")) :=
  ⟨rfl, execute_missing_tool_name_raises (.mk []) (.mk []) none [] 1 2 rfl⟩

/-- C2 counterexample: converting a tool representation whose func is absent
does not produce an echoing callable; it fails at conversion time with
ConfigurationError, refuting the claim at the concrete tool "echo". -/
theorem convert_funcless_counterexample :
    (CrewAIToolsAdapter.mk []).convert_to_crewai_tool ⟨"echo", "", .vdict [], none⟩
      = .error (.configurationError "Tool echo has no execution function") :=
  rfl

/-- C2 (amended): for every tool representation whose func is absent, the
tool-to-callable conversion raises ConfigurationError
"Tool (name) has no execution function" at conversion time. -/
theorem convert_funcless_tool_raises (a : CrewAIToolsAdapter) (t : CrewAITool)
    (hf : t.func = none) :
    a.convert_to_crewai_tool t
      = .error (.configurationError ("Tool " ++ t.name ++ " has no execution function")) := by
  unfold CrewAIToolsAdapter.convert_to_crewai_tool
  rw [hf]

/-- C2 witness: the amended theorem applied to a concrete func-less tool. -/
theorem convert_funcless_tool_raises_witness :
    (⟨"echo2", "", Value.vdict [], none⟩ : CrewAITool).func = none ∧
    (CrewAIToolsAdapter.mk []).convert_to_crewai_tool ⟨"echo2", "", .vdict [], none⟩
      = .error (.configurationError ("Tool " ++ "echo2" ++ " has no execution function")) :=
  ⟨rfl, convert_funcless_tool_raises (.mk []) ⟨"echo2", "", .vdict [], none⟩ rfl⟩

/-- C3: evaluating construction at the failing input. A "tools" list with a
well-formed entry followed by an entry missing the "name" key makes
MCPToolsAdapter construction raise KeyError (the except handler logs an
f-string that re-evaluates tool_config["name"]), so the malformed entry is
fatal instead of skipped; CrewAIToolsAdapter on the same input skips the bad
entry and registers the good one, as the claim states. -/
theorem mcp_register_missing_name_fatal :
    mkMCPToolsAdapter (.pyList
      [⟨some "good", none, none, none⟩, ⟨none, some "entry without name", none, none⟩])
      = .error (.keyError "name") ∧
    Except.map (fun a => a.tools.map CrewAITool.name)
      (mkCrewAIToolsAdapter (.pyList
        [⟨some "good", none, none, none⟩, ⟨none, some "entry without name", none, none⟩]))
      = .ok ["good"] :=
  ⟨rfl, rfl⟩

/-- C4 counterexample: a truthy non-iterable "tools" value (e.g. the int 5)
is not a sequence, passes the falsy check of validate_config, and
construction then raises TypeError from the registration for-loop, not
ConfigurationError, refuting the claim. -/
theorem mk_adapter_nonseq_counterexample :
    mkMCPToolsAdapter (.nonIterable true) = .error (.typeError notIterableMsg) ∧
    mkCrewAIToolsAdapter (.nonIterable true) = .error (.typeError notIterableMsg) :=
  ⟨rfl, rfl⟩

/-- MCPToolsAdapter registration never produces a ConfigurationError: its
per-entry failures are KeyError (missing name, re-raised by the log handler)
or a skip. -/
theorem mcp_registerList_no_config_error (es : List ToolConfig) :
    ∀ (acc : List MCPTool) (msg : String),
      MCPToolsAdapter.registerList acc es ≠ .error (.configurationError msg) := by
  induction es with
  | nil =>
      intro acc msg
      simp [MCPToolsAdapter.registerList]
  | cons tc rest ih =>
      intro acc msg
      cases htc : tc.name with
      | none =>
          have hstep : MCPToolsAdapter.registerList acc (tc :: rest)
              = .error (.keyError "name") := by
            simp only [MCPToolsAdapter.registerList, MCPToolsAdapter.registerOne, htc]
            rfl
          rw [hstep]
          simp
      | some n =>
          cases hmk : mkMCPTool n (tc.description.getD "") (tc.parameters.getD (.vdict [])) with
          | ok t =>
              have hstep : MCPToolsAdapter.registerList acc (tc :: rest)
                  = MCPToolsAdapter.registerList (acc ++ [t]) rest := by
                simp only [MCPToolsAdapter.registerList, MCPToolsAdapter.registerOne, htc, hmk]
                rfl
              rw [hstep]
              exact ih _ _
          | error e =>
              have hstep : MCPToolsAdapter.registerList acc (tc :: rest)
                  = MCPToolsAdapter.registerList acc rest := by
                simp only [MCPToolsAdapter.registerList, MCPToolsAdapter.registerOne, htc, hmk]
                rfl
              rw [hstep]
              exact ih _ _

/-- MCPToolsAdapter registration of a traversable collection succeeds when
every entry carries a "name" key (entries with invalid parameter blocks are
skipped, not fatal). -/
theorem mcp_registerList_ok_of_names (es : List ToolConfig) :
    ∀ acc : List MCPTool, (∀ tc ∈ es, tc.name.isSome = true) →
      ∃ ts, MCPToolsAdapter.registerList acc es = .ok ts := by
  induction es with
  | nil => exact fun acc _ => ⟨acc, rfl⟩
  | cons tc rest ih =>
      intro acc hnames
      cases htc : tc.name with
      | none =>
          have hname := hnames tc (List.mem_cons_self tc rest)
          rw [htc] at hname
          exact absurd hname (by simp)
      | some n =>
          cases hmk : mkMCPTool n (tc.description.getD "") (tc.parameters.getD (.vdict [])) with
          | ok t =>
              have hstep : MCPToolsAdapter.registerList acc (tc :: rest)
                  = MCPToolsAdapter.registerList (acc ++ [t]) rest := by
                simp only [MCPToolsAdapter.registerList, MCPToolsAdapter.registerOne, htc, hmk]
                rfl
              rw [hstep]
              exact ih _ (fun x hx => hnames x (List.mem_cons_of_mem _ hx))
          | error e =>
              have hstep : MCPToolsAdapter.registerList acc (tc :: rest)
                  = MCPToolsAdapter.registerList acc rest := by
                simp only [MCPToolsAdapter.registerList, MCPToolsAdapter.registerOne, htc, hmk]
                rfl
              rw [hstep]
              exact ih _ (fun x hx => hnames x (List.mem_cons_of_mem _ hx))

/-- CrewAIToolsAdapter registration of a traversable collection always
succeeds: the only per-entry failure (missing name) is caught and its log
handler uses the safe dict get. -/
theorem crewai_registerList_ok (es : List ToolConfig) :
    ∀ acc : List CrewAITool, ∃ ts, CrewAIToolsAdapter.registerList acc es = .ok ts := by
  induction es with
  | nil => exact fun acc => ⟨acc, rfl⟩
  | cons tc rest ih =>
      intro acc
      cases htc : tc.name with
      | none =>
          have hstep : CrewAIToolsAdapter.registerList acc (tc :: rest)
              = CrewAIToolsAdapter.registerList acc rest := by
            simp only [CrewAIToolsAdapter.registerList, CrewAIToolsAdapter.registerOne, htc]
            rfl
          rw [hstep]
          exact ih _
      | some n =>
          have hstep : CrewAIToolsAdapter.registerList acc (tc :: rest)
              = CrewAIToolsAdapter.registerList
                  (acc ++ [⟨n, tc.description.getD "", tc.parameters.getD (.vdict []), tc.func⟩])
                  rest := by
            simp only [CrewAIToolsAdapter.registerList, CrewAIToolsAdapter.registerOne, htc]
            rfl
          rw [hstep]
          exact ih _

/-- No branch of MCPToolsAdapter._register_tools yields a
ConfigurationError. -/
theorem mcp_registerTools_not_config_error (tv : ToolsValue) (msg : String) :
    MCPToolsAdapter.registerTools tv ≠ .error (.configurationError msg) := by
  cases tv with
  | absent => simp [MCPToolsAdapter.registerTools]
  | pyList es => exact mcp_registerList_no_config_error es [] msg
  | pyDict ks =>
      cases ks with
      | nil => simp [MCPToolsAdapter.registerTools]
      | cons k kt => simp [MCPToolsAdapter.registerTools]
  | iterator es => exact mcp_registerList_no_config_error es [] msg
  | nonIterable t => simp [MCPToolsAdapter.registerTools]

/-- No branch of CrewAIToolsAdapter._register_tools yields a
ConfigurationError. -/
theorem crewai_registerTools_not_config_error (tv : ToolsValue) (msg : String) :
    CrewAIToolsAdapter.registerTools tv ≠ .error (.configurationError msg) := by
  cases tv with
  | absent => simp [CrewAIToolsAdapter.registerTools]
  | pyList es =>
      obtain ⟨ts, hts⟩ := crewai_registerList_ok es []
      simp [CrewAIToolsAdapter.registerTools, hts]
  | pyDict ks =>
      cases ks with
      | nil => simp [CrewAIToolsAdapter.registerTools]
      | cons k kt => simp [CrewAIToolsAdapter.registerTools]
  | iterator es =>
      obtain ⟨ts, hts⟩ := crewai_registerList_ok es []
      simp [CrewAIToolsAdapter.registerTools, hts]
  | nonIterable t => simp [CrewAIToolsAdapter.registerTools]

/-- C4 (amended): constructing either tool adapter raises ConfigurationError
"Tools configuration is required" exactly when the "tools" value is falsy
(absent, empty, or any other falsy value): a truthy value never produces a
ConfigurationError, but the outcome depends on the value — a truthy
non-iterable raises TypeError from the registration for-loop; a non-empty
dict raises TypeError (MCP, subscripting a string key) or AttributeError
(CrewAI, the log handler calls .get on a string key); and an iterator whose
entries all carry a "name" key registers successfully. -/
theorem mk_adapter_config_validation (tv : ToolsValue) (msg k : String)
    (ks : List String) (es : List ToolConfig)
    (hnames : ∀ tc ∈ es, tc.name.isSome = true) :
    (tv.truthy = false →
      mkMCPToolsAdapter tv = .error (.configurationError "Tools configuration is required") ∧
      mkCrewAIToolsAdapter tv = .error (.configurationError "Tools configuration is required")) ∧
    (tv.truthy = true →
      mkMCPToolsAdapter tv ≠ .error (.configurationError msg) ∧
      mkCrewAIToolsAdapter tv ≠ .error (.configurationError msg)) ∧
    (mkMCPToolsAdapter (.nonIterable true) = .error (.typeError notIterableMsg) ∧
     mkCrewAIToolsAdapter (.nonIterable true) = .error (.typeError notIterableMsg)) ∧
    (mkMCPToolsAdapter (.pyDict (k :: ks)) = .error (.typeError strIndicesMsg) ∧
     mkCrewAIToolsAdapter (.pyDict (k :: ks)) = .error (.attributeError noGetAttrMsg)) ∧
    ((∃ a, mkMCPToolsAdapter (.iterator es) = .ok a) ∧
     (∃ b, mkCrewAIToolsAdapter (.iterator es) = .ok b)) := by
  refine ⟨?_, ?_, ⟨rfl, rfl⟩, ⟨rfl, rfl⟩, ?_, ?_⟩
  · intro htv
    cases tv with
    | absent => exact ⟨rfl, rfl⟩
    | pyList es0 =>
        cases es0 with
        | nil => exact ⟨rfl, rfl⟩
        | cons x xs => simp [ToolsValue.truthy] at htv
    | pyDict ks0 =>
        cases ks0 with
        | nil => exact ⟨rfl, rfl⟩
        | cons x xs => simp [ToolsValue.truthy] at htv
    | iterator es0 => simp [ToolsValue.truthy] at htv
    | nonIterable t =>
        cases t with
        | false => exact ⟨rfl, rfl⟩
        | true => simp [ToolsValue.truthy] at htv
  · intro htv
    have hval : validateToolsConfig tv = .ok () := by
      simp [validateToolsConfig, htv]
    constructor
    · intro hc
      have hmk : mkMCPToolsAdapter tv
          = Except.bind (MCPToolsAdapter.registerTools tv) (fun ts => .ok ⟨ts⟩) := by
        unfold mkMCPToolsAdapter
        rw [hval]
        rfl
      rw [hmk] at hc
      cases hreg : MCPToolsAdapter.registerTools tv with
      | ok ts =>
          rw [hreg] at hc
          simp [Except.bind] at hc
      | error e =>
          rw [hreg] at hc
          simp [Except.bind] at hc
          exact mcp_registerTools_not_config_error tv msg (hreg.trans (by rw [hc]))
    · intro hc
      have hmk : mkCrewAIToolsAdapter tv
          = Except.bind (CrewAIToolsAdapter.registerTools tv) (fun ts => .ok ⟨ts⟩) := by
        unfold mkCrewAIToolsAdapter
        rw [hval]
        rfl
      rw [hmk] at hc
      cases hreg : CrewAIToolsAdapter.registerTools tv with
      | ok ts =>
          rw [hreg] at hc
          simp [Except.bind] at hc
      | error e =>
          rw [hreg] at hc
          simp [Except.bind] at hc
          exact crewai_registerTools_not_config_error tv msg (hreg.trans (by rw [hc]))
  · obtain ⟨ts, hts⟩ := mcp_registerList_ok_of_names es [] hnames
    refine ⟨⟨ts⟩, ?_⟩
    have h1 : mkMCPToolsAdapter (.iterator es)
        = Except.bind (MCPToolsAdapter.registerList [] es) (fun ts => .ok ⟨ts⟩) := rfl
    rw [h1, hts]
    rfl
  · obtain ⟨ts, hts⟩ := crewai_registerList_ok es []
    refine ⟨⟨ts⟩, ?_⟩
    have h1 : mkCrewAIToolsAdapter (.iterator es)
        = Except.bind (CrewAIToolsAdapter.registerList [] es) (fun ts => .ok ⟨ts⟩) := rfl
    rw [h1, hts]
    rfl

/-- C4 witness: the amended theorem applied to the absent "tools" value, a
one-key dict and the empty iterator. -/
theorem mk_adapter_config_validation_witness :
    (∀ tc ∈ ([] : List ToolConfig), tc.name.isSome = true) ∧
    ((ToolsValue.truthy .absent = false →
        mkMCPToolsAdapter .absent
          = .error (.configurationError "Tools configuration is required") ∧
        mkCrewAIToolsAdapter .absent
          = .error (.configurationError "Tools configuration is required")) ∧
     (ToolsValue.truthy .absent = true →
        mkMCPToolsAdapter .absent ≠ .error (.configurationError "boom") ∧
        mkCrewAIToolsAdapter .absent ≠ .error (.configurationError "boom")) ∧
     (mkMCPToolsAdapter (.nonIterable true) = .error (.typeError notIterableMsg) ∧
      mkCrewAIToolsAdapter (.nonIterable true) = .error (.typeError notIterableMsg)) ∧
     (mkMCPToolsAdapter (.pyDict ("k" :: [])) = .error (.typeError strIndicesMsg) ∧
      mkCrewAIToolsAdapter (.pyDict ("k" :: [])) = .error (.attributeError noGetAttrMsg)) ∧
     ((∃ a, mkMCPToolsAdapter (.iterator []) = .ok a) ∧
      (∃ b, mkCrewAIToolsAdapter (.iterator []) = .ok b))) :=
  ⟨fun tc h => absurd h (List.not_mem_nil tc),
   mk_adapter_config_validation .absent "boom" "k" [] []
     (fun tc h => absurd h (List.not_mem_nil tc))⟩

/-- C5 counterexample: the empty tool_name matches no registered tool, yet
execute raises ConfigurationError instead of returning the not-found failure
Response, refuting the claim at a concrete input. -/
theorem execute_empty_name_counterexample :
    (MCPToolsAdapter.mk [⟨"x", "", .vdict []⟩]).execute (some "") [] 0 0
      = .error (.configurationError "Tool name is required") :=
  rfl

/-- C5 (amended): for every NON-EMPTY tool_name matching no registered tool,
both adapters return a Response with success false, error
"Tool (name) not found" and timing metadata, and do not raise; the empty
tool_name instead takes the missing-name path and raises ConfigurationError. -/
theorem execute_unknown_tool_not_found (a : MCPToolsAdapter) (b : CrewAIToolsAdapter)
    (n : String) (hn : ¬n = "") (p : Args) (t0 t1 : Nat)
    (ha : a.tools.find? (fun t => t.name == n) = none)
    (hb : b.tools.find? (fun t => t.name == n) = none) :
    a.execute (some n) p t0 t1
      = .ok { success := false
              data := none
              error := some ("Tool " ++ n ++ " not found")
              metadata := some (create_metadata "MCPToolsAdapter" (some t0) t1 []) } ∧
    b.execute (some n) p t0 t1
      = .ok { success := false
              data := none
              error := some ("Tool " ++ n ++ " not found")
              metadata := some (create_metadata "CrewAIToolsAdapter" (some t0) t1 []) } := by
  unfold MCPToolsAdapter.execute CrewAIToolsAdapter.execute
  simp [strTruthy, hn, ha, hb]

/-- C5 witness: the amended theorem applied to empty adapters and the name
"nonexistent". -/
theorem execute_unknown_tool_not_found_witness :
    ¬("nonexistent" = "") ∧
    ((MCPToolsAdapter.mk []).execute (some "nonexistent") [] 3 5
        = .ok { success := false
                data := none
                error := some ("Tool " ++ "nonexistent" ++ " not found")
                metadata := some (create_metadata "MCPToolsAdapter" (some 3) 5 []) } ∧
     (CrewAIToolsAdapter.mk []).execute (some "nonexistent") [] 3 5
        = .ok { success := false
                data := none
                error := some ("Tool " ++ "nonexistent" ++ " not found")
                metadata := some (create_metadata "CrewAIToolsAdapter" (some 3) 5 []) }) :=
  ⟨by decide, execute_unknown_tool_not_found (.mk []) (.mk []) "nonexistent"
    (by decide) [] 3 5 rfl rfl⟩

/-- The add tool function of the round-trip scenario (spec section 8):
func = (a, b) mapsto a + b on integer keyword arguments. -/
def addFunc : ToolFunc := fun args =>
  match args.find? (fun p => p.1 == "a"), args.find? (fun p => p.1 == "b") with
  | some (_, .vint a), some (_, .vint b) => .ok (.vint (a + b))
  | _, _ => .error "unsupported operand types"

/-- Configuration entry registering the add tool of the round-trip scenario. -/
def addToolConfig : ToolConfig :=
  { name := some "add"
    description := some "Add two numbers"
    parameters := some (.vdict [("a", .vstr "int"), ("b", .vstr "int")])
    func := some addFunc }

/-- C6: an adapter configured with one tool named "add" whose func returns
a + b, converted via get_all_tools and invoked with a = 3 and b = 5, returns
the string "8": the wrapper stringifies the integer result. -/
theorem add_tool_round_trip :
    Except.map
      (List.map (fun t => ConcreteCrewAITool.run t [("a", .vint 3), ("b", .vint 5)]))
      (Except.bind (mkCrewAIToolsAdapter (.pyList [addToolConfig]))
        CrewAIToolsAdapter.get_all_tools)
      = .ok [.ok "8"] :=
  rfl

/-- The error-field invariant of the Response envelope: success implies no
error string, failure implies a set error string. -/
def responseErrorInvariant (r : AdapterResponse) : Prop :=
  (r.success = true → r.error = none) ∧ (r.success = false → ∃ s, r.error = some s)

/-- C7: every AdapterResponse produced by MCPToolsAdapter.execute,
CrewAIToolsAdapter.execute or ContextProtocolClient.execute satisfies the
invariant: success implies error is None, failure implies error is a set
string. -/
theorem execute_response_error_invariant
    (a : MCPToolsAdapter) (b : CrewAIToolsAdapter) (c : ContextProtocolClient)
    (tn : Option String) (p : Args) (t0 t1 : Nat)
    (st : Option Nat) (ctx : String) (msgs : List Value) (r : AdapterResponse) :
    (a.execute tn p t0 t1 = .ok r → responseErrorInvariant r) ∧
    (b.execute tn p t0 t1 = .ok r → responseErrorInvariant r) ∧
    (c.execute st ctx msgs t1 = r → responseErrorInvariant r) := by
  refine ⟨?_, ?_, ?_⟩
  · intro h
    unfold MCPToolsAdapter.execute at h
    split at h
    · split at h <;> (cases h; simp [responseErrorInvariant])
    · exact Except.noConfusion h
  · intro h
    unfold CrewAIToolsAdapter.execute at h
    split at h
    · split at h
      · cases h; simp [responseErrorInvariant]
      · split at h
        · split at h <;> (cases h; simp [responseErrorInvariant])
        · cases h; simp [responseErrorInvariant]
    · exact Except.noConfusion h
  · intro h
    subst h
    simp [responseErrorInvariant, ContextProtocolClient.execute]

/-- C7 witness: the invariant theorem applied to an empty MCP adapter and an
unknown tool name; the produced response is the not-found failure. -/
theorem execute_response_error_invariant_witness :
    responseErrorInvariant
      { success := false
        data := none
        error := some ("Tool " ++ "t" ++ " not found")
        metadata := some (create_metadata "MCPToolsAdapter" (some 0) 0 []) } :=
  (execute_response_error_invariant (.mk []) (.mk []) ⟨"m", 0⟩ (some "t") [] 0 0
      none "" []
      { success := false
        data := none
        error := some ("Tool " ++ "t" ++ " not found")
        metadata := some (create_metadata "MCPToolsAdapter" (some 0) 0 []) }).1 rfl

/-- The metadata contract of spec section 8: the source names the emitting
adapter class and the duration is non-negative. The timestamp is a string by
construction of AdapterMetadata.timestamp. -/
def metadataContract (className : String) (m : AdapterMetadata) : Prop :=
  m.source = className ∧ 0 ≤ m.duration

/-- C8: every Response returned by the three execute operations whose
metadata is present carries a source string equal to the adapter class name
and a non-negative duration (clock samples are monotone: the entry sample is
at most the metadata-building sample); the timestamp is a string by the type
of AdapterMetadata.timestamp. -/
theorem execute_metadata_contract
    (a : MCPToolsAdapter) (b : CrewAIToolsAdapter) (c : ContextProtocolClient)
    (tn : Option String) (p : Args) (t0 t1 : Nat) (h01 : t0 ≤ t1)
    (st : Option Nat) (ctx : String) (msgs : List Value)
    (hst : ∀ s, st = some s → s ≤ t1)
    (r : AdapterResponse) (m : AdapterMetadata) :
    (a.execute tn p t0 t1 = .ok r → r.metadata = some m →
        metadataContract "MCPToolsAdapter" m) ∧
    (b.execute tn p t0 t1 = .ok r → r.metadata = some m →
        metadataContract "CrewAIToolsAdapter" m) ∧
    (c.execute st ctx msgs t1 = r → r.metadata = some m →
        metadataContract "ContextProtocolClient" m) := by
  refine ⟨?_, ?_, ?_⟩
  · intro h hm
    unfold MCPToolsAdapter.execute at h
    split at h
    · split at h <;>
        (cases h
         injection hm with hm2
         subst hm2
         refine ⟨rfl, ?_⟩
         simp [create_metadata]
         omega)
    · exact Except.noConfusion h
  · intro h hm
    unfold CrewAIToolsAdapter.execute at h
    split at h
    · split at h
      · cases h
        injection hm with hm2
        subst hm2
        refine ⟨rfl, ?_⟩
        simp [create_metadata]
        omega
      · split at h
        · split at h <;>
            (cases h
             injection hm with hm2
             subst hm2
             refine ⟨rfl, ?_⟩
             simp [create_metadata]
             omega)
        · cases h
          injection hm with hm2
          subst hm2
          refine ⟨rfl, ?_⟩
          simp [create_metadata]
          omega
    · exact Except.noConfusion h
  · intro h hm
    subst h
    injection hm with hm2
    subst hm2
    refine ⟨rfl, ?_⟩
    cases st with
    | none => simp [create_metadata]
    | some s =>
        have hs := hst s rfl
        simp [create_metadata]
        omega

/-- C8 witness: the metadata-contract theorem applied to an empty MCP
adapter, an unknown tool name and clock samples 3 and 5. -/
theorem execute_metadata_contract_witness :
    (3 : Nat) ≤ 5 ∧
    metadataContract "MCPToolsAdapter" (create_metadata "MCPToolsAdapter" (some 3) 5 []) :=
  ⟨by decide,
   (execute_metadata_contract (.mk []) (.mk []) ⟨"m", 0⟩ (some "t") [] 3 5 (by decide)
      none "" [] (fun s h => Option.noConfusion h)
      { success := false
        data := none
        error := some ("Tool " ++ "t" ++ " not found")
        metadata := some (create_metadata "MCPToolsAdapter" (some 3) 5 []) }
      (create_metadata "MCPToolsAdapter" (some 3) 5 [])).1 rfl rfl⟩

/-- A trivial concrete tool used as payload in client-state examples. -/
def trivialTool : ConcreteCrewAITool :=
  { name := "t", description := "", execution_func := fun _ => .ok .vnone }

/-- Lookup in an association list with pairwise-distinct keys finds the
registered entry. -/
theorem find_key_of_mem {l : List (String × List ConcreteCrewAITool)} {n : String}
    {ts : List ConcreteCrewAITool}
    (hnd : (l.map Prod.fst).Nodup) (hmem : (n, ts) ∈ l) :
    l.find? (fun p => p.1 == n) = some (n, ts) := by
  induction l with
  | nil => exact absurd hmem (List.not_mem_nil _)
  | cons q rest ih =>
      rcases List.mem_cons.mp hmem with he | hr
      · subst he
        simp [List.find?]
      · have hkey : ¬q.1 = n := by
          intro hEq
          have hmapped : n ∈ rest.map Prod.fst := List.mem_map.mpr ⟨(n, ts), hr, rfl⟩
          rw [List.map_cons] at hnd
          exact (List.nodup_cons.mp hnd).1 (hEq ▸ hmapped)
        rw [List.map_cons] at hnd
        simp only [List.find?, beq_eq_false_iff_ne.mpr hkey]
        exact ih (List.nodup_cons.mp hnd).2 hr

/-- C9 counterexample: the empty string is not a registered adapter name, so
get_tools (some "") should return the empty list per the claim; the source
tests the name with Python truthiness, so the empty string falls into the
flatten-everything branch and the call returns the cached tools of "a". -/
theorem get_tools_empty_name_counterexample :
    (CrewAIAdapterClient.mk [("a", [trivialTool])]).get_tools (some "") = [trivialTool] ∧
    [trivialTool] ≠ ([] : List ConcreteCrewAITool) :=
  ⟨rfl, by simp⟩

/-- C9 (amended): get_tools with a NON-EMPTY name returns exactly the cached
tool list registered under that name (keys being distinct), or the empty
list if the name is unknown; with no name — or with the empty-string name,
which Python truthiness treats like an absent name — it returns the
concatenation of all cached lists. -/
theorem get_tools_spec (c : CrewAIAdapterClient) (n : String) (hn : ¬n = "")
    (ts : List ConcreteCrewAITool) :
    ((c.tools.map Prod.fst).Nodup → (n, ts) ∈ c.tools → c.get_tools (some n) = ts) ∧
    ((∀ q ∈ c.tools, ¬q.1 = n) → c.get_tools (some n) = []) ∧
    (c.get_tools none = (c.tools.map Prod.snd).flatten) ∧
    (c.get_tools (some "") = (c.tools.map Prod.snd).flatten) := by
  refine ⟨?_, ?_, rfl, rfl⟩
  · intro hnd hmem
    simp [CrewAIAdapterClient.get_tools, strTruthy, hn, dictGetD, find_key_of_mem hnd hmem]
  · intro habs
    have hfind : c.tools.find? (fun q => q.1 == n) = none := by
      rw [List.find?_eq_none]
      intro q hq
      simpa using habs q hq
    simp [CrewAIAdapterClient.get_tools, strTruthy, hn, dictGetD, hfind]

/-- C9 witness: the amended theorem applied to a client with one cached list
under "a". -/
theorem get_tools_spec_witness :
    ¬("a" = "") ∧
    (CrewAIAdapterClient.mk [("a", [trivialTool])]).get_tools (some "a") = [trivialTool] :=
  ⟨by decide,
   (get_tools_spec (.mk [("a", [trivialTool])]) "a" (by decide) [trivialTool]).1
     (by simp) (by simp)⟩

/-- C10: for a validated client with non-negative context_size N, execute
succeeds and its data maps "context" to the first N characters, "messages"
to the first N messages, and the embedded metadata sets "truncated" exactly
when the context length exceeds N. -/
theorem context_execute_spec (c : ContextProtocolClient) (hN : 0 ≤ c.context_size)
    (st : Option Nat) (ctx : String) (msgs : List Value) (t1 : Nat) :
    (c.execute st ctx msgs t1).success = true ∧
    (c.execute st ctx msgs t1).data = some (.vdict
      [("model", .vstr c.model_name),
       ("context", .vstr (ctx.take c.context_size.toNat)),
       ("messages", .vlist (msgs.take c.context_size.toNat)),
       ("metadata", .vdict
         [("original_context_length", .vint ctx.length),
          ("truncated", .vbool (decide ((ctx.length : Int) > c.context_size)))])]) := by
  refine ⟨rfl, ?_⟩
  have hlt : ¬c.context_size < 0 := not_lt.mpr hN
  simp [ContextProtocolClient.execute, ContextProtocolClient.process_context,
        pySliceStr, pySliceList, hlt]

/-- C10 witness: the theorem applied to the client with model "m" and
context_size 2, context "abcd" and no messages. -/
theorem context_execute_spec_witness :
    (0 : Int) ≤ (⟨"m", 2⟩ : ContextProtocolClient).context_size ∧
    (((⟨"m", 2⟩ : ContextProtocolClient).execute none "abcd" [] 7).success = true ∧
     ((⟨"m", 2⟩ : ContextProtocolClient).execute none "abcd" [] 7).data = some (.vdict
       [("model", .vstr "m"),
        ("context", .vstr ("abcd".take ((2 : Int)).toNat)),
        ("messages", .vlist (([] : List Value).take ((2 : Int)).toNat)),
        ("metadata", .vdict
          [("original_context_length", .vint ("abcd".length : Int)),
           ("truncated", .vbool (decide ((("abcd".length : Nat) : Int) > (2 : Int))))])])) :=
  ⟨by decide, context_execute_spec ⟨"m", 2⟩ (by decide) none "abcd" [] 7⟩

end CrewaiAdapters
